import Mathlib

/-!
Verification of the notification command-center backend.

This file gives a shallow embedding of the persistence layer
(`models/database.py`), the websocket hub (`ws/manager.py`), the service
registry (`main.py`) and the listener loop (`services/base.py`), and proves
or refutes the stated properties about them.

Datetimes are modelled as `Nat` (a Python `datetime` object is always
truthy, so truthiness of an optional datetime is `Option.isSome`).
JSON serialisation of the opaque `raw_payload` map is modelled as an
already-serialised `Option String` carried through unchanged.
-/

namespace CommandCenter

/-- Source enumeration from `models/notification.py` (`class Source(StrEnum)`). -/
inductive Source where
  | gmail
  | outlook
  | slack
  | asana
  | plane
deriving DecidableEq, Repr

/-- String value of a `Source` member, as in the Python `StrEnum`. -/
def Source.value : Source → String
  | .gmail => "gmail"
  | .outlook => "outlook"
  | .slack => "slack"
  | .asana => "asana"
  | .plane => "plane"

/-- NotificationType enumeration from `models/notification.py`. -/
inductive NotificationType where
  | email
  | message
  | task_update
  | task_assigned
  | mention
  | comment
  | reminder
deriving DecidableEq, Repr

/-- String value of a `NotificationType` member. -/
def NotificationType.value : NotificationType → String
  | .email => "email"
  | .message => "message"
  | .task_update => "task_update"
  | .task_assigned => "task_assigned"
  | .mention => "mention"
  | .comment => "comment"
  | .reminder => "reminder"

/-- Priority enumeration from `models/notification.py`. -/
inductive Priority where
  | urgent
  | high
  | normal
  | low
deriving DecidableEq, Repr

/-- String value of a `Priority` member. -/
def Priority.value : Priority → String
  | .urgent => "urgent"
  | .high => "high"
  | .normal => "normal"
  | .low => "low"

/-- TriageStatus enumeration from `models/notification.py`. -/
inductive TriageStatus where
  | unread
  | read
  | snoozed
  | archived
  | actioned
deriving DecidableEq, Repr

/-- String value of a `TriageStatus` member. -/
def TriageStatus.value : TriageStatus → String
  | .unread => "unread"
  | .read => "read"
  | .snoozed => "snoozed"
  | .archived => "archived"
  | .actioned => "actioned"

/-- The canonical notification model (`class Notification(BaseModel)` in
`models/notification.py`). -/
structure Notification where
  id : String
  source : Source
  source_account : String
  source_id : String
  notification_type : NotificationType
  title : String
  body : String
  sender_name : String
  sender_avatar : Option String
  timestamp : Nat
  priority : Priority
  triage_status : TriageStatus
  is_actionable : Bool
  thread_id : Option String
  channel_name : Option String
  project_name : Option String
  snoozed_until : Option Nat
  raw_payload : Option String
deriving DecidableEq, Repr

/-- A row of the `notifications` table (`class NotificationRecord` in
`models/database.py`); enum-valued columns hold the `.value` strings. -/
structure NotificationRecord where
  id : String
  source : String
  source_account : String
  source_id : String
  notification_type : String
  title : String
  body : String
  sender_name : String
  sender_avatar : Option String
  timestamp : Nat
  priority : String
  triage_status : String
  is_actionable : Bool
  thread_id : Option String
  channel_name : Option String
  project_name : Option String
  snoozed_until : Option Nat
  raw_payload : Option String
  created_at : Nat
deriving DecidableEq, Repr

/-- The `notifications` table, as the ordered list of its rows. -/
abbrev Store := List NotificationRecord

/-- The dedup lookup predicate of `save_notification`: row matches on
`source == notification.source.value` and `source_id == notification.source_id`. -/
def keyMatch (n : Notification) (r : NotificationRecord) : Bool :=
  r.source == n.source.value && r.source_id == n.source_id

/-- The update branch of `save_notification`: overwrite exactly
title, body, timestamp and priority on the existing row. -/
def updateExisting (n : Notification) (r : NotificationRecord) : NotificationRecord :=
  { r with
    title := n.title
    body := n.body
    timestamp := n.timestamp
    priority := n.priority.value }

/-- The insert branch of `save_notification`: a fresh row built from the
notification. `snoozed_until` is not passed, so the column default `NULL`
applies; `created_at` takes the column default `datetime.now(UTC)`,
modelled by the explicit `now` argument. -/
def newRecord (n : Notification) (now : Nat) : NotificationRecord :=
  { id := n.id
    source := n.source.value
    source_account := n.source_account
    source_id := n.source_id
    notification_type := n.notification_type.value
    title := n.title
    body := n.body
    sender_name := n.sender_name
    sender_avatar := n.sender_avatar
    timestamp := n.timestamp
    priority := n.priority.value
    triage_status := n.triage_status.value
    is_actionable := n.is_actionable
    thread_id := n.thread_id
    channel_name := n.channel_name
    project_name := n.project_name
    snoozed_until := none
    raw_payload := n.raw_payload
    created_at := now }

/-- Embedding of `save_notification` (`models/database.py`). The lookup uses
`scalar_one_or_none`, which raises `MultipleResultsFound` when more than one
row matches the dedup key; that failure is modelled as `none`. Otherwise,
an existing row is updated in place (title/body/timestamp/priority) and a
missing row is inserted. -/
def save_notification (n : Notification) (now : Nat) (s : Store) : Option Store :=
  if 2 ≤ (s.filter (keyMatch n)).length then
    none
  else
    match s.find? (keyMatch n) with
    | some _ => some (s.map fun r => if keyMatch n r then updateExisting n r else r)
    | none => some (s ++ [newRecord n now])

/-- Embedding of `update_triage_status` (`models/database.py`).
`session.get` looks the row up by primary key; an unknown id returns
`False` and changes nothing. Otherwise `triage_status` is assigned
unconditionally and `snoozed_until` is assigned only when the argument is
truthy (a datetime is always truthy, hence `isSome`). -/
def update_triage_status (s : Store) (notification_id : String) (status : String)
    (snoozed_until : Option Nat) : Bool × Store :=
  match s.find? (fun r => r.id == notification_id) with
  | none => (false, s)
  | some _ =>
    (true, s.map fun r =>
      if r.id == notification_id then
        { r with
          triage_status := status
          snoozed_until := match snoozed_until with
            | some t => some t
            | none => r.snoozed_until }
      else r)

/-- Descending-timestamp comparison used by
`order_by(NotificationRecord.timestamp.desc())`. -/
def tsDescLe (a b : NotificationRecord) : Bool :=
  decide (b.timestamp ≤ a.timestamp)

/-- The `where` clause of `load_notifications`: with a truthy
`status_filter` only that status is kept, otherwise archived rows are
excluded (an empty string is falsy in Python). -/
def visibleRecords (s : Store) (status_filter : Option String) : Store :=
  match status_filter with
  | some f =>
    if f == "" then s.filter (fun r => r.triage_status != "archived")
    else s.filter (fun r => r.triage_status == f)
  | none => s.filter (fun r => r.triage_status != "archived")

/-- The rows actually fetched by the query of `load_notifications`:
filtered, ordered by timestamp descending, limited. -/
def selectedRecords (s : Store) (limit : Nat) (status_filter : Option String) : Store :=
  ((visibleRecords s status_filter).mergeSort tsDescLe).take limit

/-- The lazy-expiry test of `load_notifications`:
`r.triage_status == "snoozed" and r.snoozed_until and r.snoozed_until <= now`. -/
def expiredSnooze (now : Nat) (r : NotificationRecord) : Bool :=
  r.triage_status == "snoozed" &&
    match r.snoozed_until with
    | some t => decide (t ≤ now)
    | none => false

/-- The in-place un-snooze mutation of `load_notifications`. -/
def unsnooze (r : NotificationRecord) : NotificationRecord :=
  { r with triage_status := "unread", snoozed_until := none }

/-- The dict built for each returned row by `load_notifications`. -/
structure NotificationDict where
  id : String
  source : String
  source_account : String
  source_id : String
  notification_type : String
  title : String
  body : String
  sender_name : String
  sender_avatar : Option String
  timestamp : Option String
  priority : String
  triage_status : String
  is_actionable : Bool
  thread_id : Option String
  channel_name : Option String
  project_name : Option String
  snoozed_until : Option String
  raw_payload : Option String
deriving DecidableEq, Repr

/-- Rendering of a datetime by `.isoformat()`, modelled injectively. -/
def isoformat (t : Nat) : String := toString t

/-- The dict literal of `load_notifications` for one row. A datetime is
always truthy, so `timestamp` always renders; `snoozed_until` renders when
present; `json.loads` of the stored payload returns the payload map,
modelled as the carried string. -/
def toDict (r : NotificationRecord) : NotificationDict :=
  { id := r.id
    source := r.source
    source_account := r.source_account
    source_id := r.source_id
    notification_type := r.notification_type
    title := r.title
    body := r.body
    sender_name := r.sender_name
    sender_avatar := r.sender_avatar
    timestamp := some (isoformat r.timestamp)
    priority := r.priority
    triage_status := r.triage_status
    is_actionable := r.is_actionable
    thread_id := r.thread_id
    channel_name := r.channel_name
    project_name := r.project_name
    snoozed_until := r.snoozed_until.map isoformat
    raw_payload := r.raw_payload }

/-- Embedding of `load_notifications` (`models/database.py`). The fetched
rows are filtered/ordered/limited by the query; each fetched row that is
snoozed past its `snoozed_until` is flipped to unread in place before being
rendered, and the final commit persists exactly those flips (ORM object
identity is modelled through the primary key `id`). Returns the rendered
dicts and the table after the commit. -/
def load_notifications (s : Store) (now : Nat) (limit : Nat)
    (status_filter : Option String) : List NotificationDict × Store :=
  let selected := selectedRecords s limit status_filter
  let rows := selected.map fun r => toDict (if expiredSnooze now r then unsnooze r else r)
  let flippedIds := (selected.filter (expiredSnooze now)).map (fun r => r.id)
  let committed := s.map fun r =>
    if flippedIds.contains r.id && expiredSnooze now r then unsnooze r else r
  (rows, committed)

/-- A websocket connection as seen by the hub (`ws/manager.py`): an
identity, whether `send_text` raises for it, and the texts it has
received. -/
structure WSConn where
  cid : Nat
  broken : Bool
  inbox : List String
deriving DecidableEq, Repr

/-- The event envelope (`class WebSocketMessage` in
`models/notification.py`): an event tag and a flat data map. -/
structure WebSocketMessage where
  event : String
  data : List (String × String)
deriving DecidableEq, Repr

/-- Serialisation `message.model_dump_json()`, modelled as an injective
rendering of the envelope. -/
def model_dump_json (m : WebSocketMessage) : String :=
  "event=" ++ m.event ++ ";data=" ++
    String.intercalate "," (m.data.map fun p => p.1 ++ ":" ++ p.2)

/-- The hub state (`class ConnectionManager` in `ws/manager.py`): the live
connection set, modelled as a duplicate-free list. -/
structure ConnectionManager where
  active_connections : List WSConn
deriving DecidableEq, Repr

/-- Embedding of `ConnectionManager.broadcast`: the message is serialised
once, delivery is attempted to every registered connection (a raising
connection is collected as dead, a successful one receives the payload),
and the dead connections are then removed from the set. -/
def broadcast (message : WebSocketMessage) (st : ConnectionManager) : ConnectionManager :=
  let data := model_dump_json message
  let afterSend := st.active_connections.map fun c =>
    if c.broken then c else { c with inbox := c.inbox ++ [data] }
  { active_connections := afterSend.filter fun c => !c.broken }

/-- A Gmail adapter as the reply router sees it (`GmailService.__init__`
sets `self.email = account_email`). -/
structure GmailService where
  email : String
deriving DecidableEq, Repr

/-- The Outlook adapter (`OutlookService.__init__` fixes its account to
`settings.outlook_account`). -/
structure OutlookService where
  account : String
deriving DecidableEq, Repr

/-- A Slack adapter (`SlackService.__init__` sets
`self.workspace_name = workspace_name`). -/
structure SlackService where
  workspace_name : String
deriving DecidableEq, Repr

/-- The per-kind service lists of `ServiceRegistry.__init__` that
`get_service_for_reply` consults. -/
structure ServiceRegistry where
  gmail_services : List GmailService
  outlook_service : Option OutlookService
  slack_services : List SlackService
deriving DecidableEq, Repr

/-- The polymorphic return value of `get_service_for_reply`. -/
inductive ServiceRef where
  | gmailSvc (s : GmailService)
  | outlookSvc (s : OutlookService)
  | slackSvc (s : SlackService)
deriving DecidableEq, Repr

/-- Embedding of `ServiceRegistry.get_service_for_reply` (`main.py`):
first Gmail service whose `email` equals the account; the single
Outlook service unconditionally; first Slack service whose
`workspace_name` equals the account; otherwise `None`. -/
def get_service_for_reply (reg : ServiceRegistry) (source : Source) (account : String) :
    Option ServiceRef :=
  if source = Source.gmail then
    (reg.gmail_services.find? fun s => s.email == account).map ServiceRef.gmailSvc
  else if source = Source.outlook then
    reg.outlook_service.map ServiceRef.outlookSvc
  else if source = Source.slack then
    (reg.slack_services.find? fun s => s.workspace_name == account).map ServiceRef.slackSvc
  else
    none

/-- One step of the accumulation loop of `ServiceRegistry.fetch_all_recent`:
a result that is a list extends the accumulator, a result that is an
exception is skipped. -/
def collectStep (acc : List Notification) (r : Except String (List Notification)) :
    List Notification :=
  match r with
  | Except.ok lst => acc ++ lst
  | Except.error _ => acc

/-- The accumulation loop of `ServiceRegistry.fetch_all_recent`. -/
def collectOk (results : List (Except String (List Notification))) : List Notification :=
  results.foldl collectStep []

/-- Comparison for `sort(key=lambda n: n.timestamp, reverse=True)`. -/
def notifDescLe (a b : Notification) : Bool :=
  decide (b.timestamp ≤ a.timestamp)

/-- Embedding of `ServiceRegistry.fetch_all_recent` (`main.py`), taking the
per-adapter outcomes of the `asyncio.gather(..., return_exceptions=True)`
fan-out: successful lists are merged, exceptions are dropped, the merge is
stably sorted by timestamp descending and truncated to `limit`. -/
def fetch_all_recent (results : List (Except String (List Notification))) (limit : Nat) :
    List Notification :=
  ((collectOk results).mergeSort notifDescLe).take limit

/-- One outcome of an `await self.listen()` call inside
`BaseService._run_listener` while the service keeps running. -/
inductive ListenOutcome where
  | ok
  | cancelled
  | failure (msg : String)
deriving DecidableEq, Repr

/-- Observable steps taken by the listener loop. -/
inductive ServiceEvent where
  | listenStarted
  | connectionStatus (service : String) (connected : Bool) (account : String)
  | sleepFor (seconds : Nat)
  | connectAttempt
deriving DecidableEq, Repr

/-- Embedding of `BaseService._run_listener` (`services/base.py`) as the
event trace produced while consuming a finite script of `listen()`
outcomes, with `self._running` held true throughout (no `stop()` call): a
normal return re-enters the loop; `CancelledError` breaks out; any other
exception broadcasts `connection_status=False`, sleeps the fixed 5
seconds, retries `connect()` and re-enters the loop. -/
def run_listener (service account : String) : List ListenOutcome → List ServiceEvent
  | [] => []
  | ListenOutcome.ok :: rest =>
    ServiceEvent.listenStarted :: run_listener service account rest
  | ListenOutcome.cancelled :: _ => [ServiceEvent.listenStarted]
  | ListenOutcome.failure _ :: rest =>
    ServiceEvent.listenStarted ::
    ServiceEvent.connectionStatus service false account ::
    ServiceEvent.sleepFor 5 ::
    ServiceEvent.connectAttempt ::
    run_listener service account rest

/-- Detects a `connection_status` broadcast carrying `connected = true`. -/
def isConnTrue : ServiceEvent → Bool
  | ServiceEvent.connectionStatus _ true _ => true
  | _ => false

/-- Detects a `connection_status` broadcast carrying `connected = false`. -/
def isConnFalse : ServiceEvent → Bool
  | ServiceEvent.connectionStatus _ false _ => true
  | _ => false

/-! ## Helper lemmas about the dedup key and `save_notification` -/

/-- Two notifications with the same (source, source_id) drive the same
dedup lookup. -/
theorem keyMatch_congr {n1 n2 : Notification} (hs : n1.source = n2.source)
    (hid : n1.source_id = n2.source_id) : keyMatch n1 = keyMatch n2 := by
  funext r
  simp [keyMatch, hs, hid]

/-- The update branch does not change the dedup key columns. -/
theorem keyMatch_updateExisting (n n' : Notification) (r : NotificationRecord) :
    keyMatch n (updateExisting n' r) = keyMatch n r := rfl

/-- A freshly inserted row matches its own notification's dedup key. -/
theorem keyMatch_newRecord (n : Notification) (now : Nat) :
    keyMatch n (newRecord n now) = true := by
  simp [keyMatch, newRecord]

/-- `find?` returns the head of the filtered list. -/
theorem find?_eq_head?_filter {α : Type} (p : α → Bool) (l : List α) :
    l.find? p = (l.filter p).head? := by
  induction l with
  | nil => rfl
  | cons a t ih =>
    cases h : p a
    · rw [List.find?_cons_of_neg _ (by simp [h]), List.filter_cons_of_neg (by simp [h]), ih]
    · rw [List.find?_cons_of_pos _ h, List.filter_cons_of_pos h]
      rfl

/-- Updating the matching rows in place rewrites exactly the filtered
sublist through `updateExisting`. -/
theorem filter_map_update (n : Notification) (s : Store) :
    ((s.map fun r => if keyMatch n r then updateExisting n r else r).filter (keyMatch n)) =
      (s.filter (keyMatch n)).map (updateExisting n) := by
  induction s with
  | nil => rfl
  | cons a t ih =>
    cases h : keyMatch n a <;>
      simp [List.filter_cons, h, keyMatch_updateExisting, ih]

/-- Effect of one `save_notification` on a table holding at most one row
for the notification's dedup key: it succeeds, leaves exactly one row for
the key, that row carries the notification's title, and its `id` is the
existing row's `id` (update branch) or the notification's `id` (insert
branch). -/
theorem save_spec (n : Notification) (now : Nat) (s : Store)
    (hcount : (s.filter (keyMatch n)).length ≤ 1) :
    ∃ s' r', save_notification n now s = some s' ∧
      s'.filter (keyMatch n) = [r'] ∧
      r'.title = n.title ∧
      (match s.find? (keyMatch n) with
       | some r0 => r'.id = r0.id
       | none => r'.id = n.id) := by
  cases hf : s.find? (keyMatch n) with
  | none =>
    have hfil : s.filter (keyMatch n) = [] := by
      rw [find?_eq_head?_filter] at hf
      cases h : s.filter (keyMatch n) with
      | nil => rfl
      | cons b t => rw [h] at hf; simp at hf
    refine ⟨s ++ [newRecord n now], newRecord n now, ?_, ?_, rfl, rfl⟩
    · simp [save_notification, hf, hfil]
    · simp [List.filter_append, hfil, keyMatch_newRecord]
  | some r0 =>
    have hhead : (s.filter (keyMatch n)).head? = some r0 := by
      rw [← find?_eq_head?_filter]; exact hf
    have hfil : s.filter (keyMatch n) = [r0] := by
      cases h : s.filter (keyMatch n) with
      | nil => rw [h] at hhead; simp at hhead
      | cons b t =>
        rw [h] at hhead hcount
        simp at hhead hcount
        rw [hhead, hcount]
    refine ⟨s.map fun r => if keyMatch n r then updateExisting n r else r,
      updateExisting n r0, ?_, ?_, rfl, by simp [updateExisting]⟩
    · have hguard : ¬ 2 ≤ (s.filter (keyMatch n)).length := by rw [hfil]; simp
      simp [save_notification, hf, hguard]
    · rw [filter_map_update, hfil]; rfl

/-- C1: upserting the same (source, source_id) twice, starting from a
table holding at most one row for that key, succeeds both times and yields
exactly one stored row for the key, carrying the second notification's
title, with the same `id` after the second upsert as after the first. -/
theorem save_notification_dedup_idempotent
    (n1 n2 : Notification) (t1 t2 : Nat) (s : Store)
    (hsrc : n1.source = n2.source) (hsid : n1.source_id = n2.source_id)
    (hcount : (s.filter (keyMatch n1)).length ≤ 1) :
    ∃ s1 s2 r1 r2,
      save_notification n1 t1 s = some s1 ∧
      save_notification n2 t2 s1 = some s2 ∧
      s1.filter (keyMatch n1) = [r1] ∧
      s2.filter (keyMatch n2) = [r2] ∧
      r2.title = n2.title ∧
      r2.id = r1.id := by
  obtain ⟨s1, r1, hsave1, hfil1, _, _⟩ := save_spec n1 t1 s hcount
  have hkey : keyMatch n1 = keyMatch n2 := keyMatch_congr hsrc hsid
  have hcount1 : (s1.filter (keyMatch n2)).length ≤ 1 := by
    rw [← hkey, hfil1]; simp
  obtain ⟨s2, r2, hsave2, hfil2, htitle2, hid2⟩ := save_spec n2 t2 s1 hcount1
  have hfind : s1.find? (keyMatch n2) = some r1 := by
    rw [find?_eq_head?_filter, ← hkey, hfil1]; rfl
  rw [hfind] at hid2
  exact ⟨s1, s2, r1, r2, hsave1, hsave2, hfil1, hfil2, htitle2, hid2⟩

/-- A sample notification used to evaluate the store operations on
concrete inputs. -/
def sampleNotification : Notification :=
  { id := "id-1"
    source := Source.gmail
    source_account := "work@gmail.com"
    source_id := "msg-1"
    notification_type := NotificationType.email
    title := "first title"
    body := "body"
    sender_name := "Alice"
    sender_avatar := none
    timestamp := 100
    priority := Priority.normal
    triage_status := TriageStatus.unread
    is_actionable := true
    thread_id := none
    channel_name := none
    project_name := none
    snoozed_until := none
    raw_payload := none }

/-- C1 witness: the dedup idempotence theorem evaluated on an empty table
and two concrete upserts with different titles. -/
theorem save_notification_dedup_idempotent_witness :
    ∃ s1 s2 r1 r2,
      save_notification sampleNotification 0 [] = some s1 ∧
      save_notification { sampleNotification with title := "second title" } 1 s1 = some s2 ∧
      s1.filter (keyMatch sampleNotification) = [r1] ∧
      s2.filter (keyMatch { sampleNotification with title := "second title" }) = [r2] ∧
      r2.title = "second title" ∧
      r2.id = r1.id :=
  save_notification_dedup_idempotent sampleNotification
    { sampleNotification with title := "second title" } 0 1 [] rfl rfl (by simp)

/-! ## C4: frame of re-observation -/

/-- Relation between a row before and after a `save_notification` that took
the update branch: only title, body, timestamp and priority may change, and
they change exactly on the matching row; every other field, and every
non-matching row, is untouched. -/
def frameOk (n : Notification) (r r' : NotificationRecord) : Prop :=
  r'.id = r.id ∧ r'.source = r.source ∧ r'.source_account = r.source_account ∧
  r'.source_id = r.source_id ∧ r'.notification_type = r.notification_type ∧
  r'.sender_name = r.sender_name ∧ r'.sender_avatar = r.sender_avatar ∧
  r'.triage_status = r.triage_status ∧ r'.is_actionable = r.is_actionable ∧
  r'.thread_id = r.thread_id ∧ r'.channel_name = r.channel_name ∧
  r'.project_name = r.project_name ∧ r'.snoozed_until = r.snoozed_until ∧
  r'.raw_payload = r.raw_payload ∧ r'.created_at = r.created_at ∧
  (keyMatch n r = true →
    r'.title = n.title ∧ r'.body = n.body ∧ r'.timestamp = n.timestamp ∧
    r'.priority = n.priority.value) ∧
  (keyMatch n r = false → r' = r)

/-- C4: when `save_notification` finds an existing row for the dedup key,
it only overwrites title, body, timestamp and priority on that row — id,
source_account, sender fields, triage_status, snoozed_until, actionable
flag, thread/channel/project linkage, raw_payload and created_at are
unchanged, and every other row of the table is untouched. -/
theorem save_notification_update_frame (n : Notification) (now : Nat) (s : Store)
    (r0 : NotificationRecord)
    (hfind : s.find? (keyMatch n) = some r0)
    (hcount : (s.filter (keyMatch n)).length ≤ 1) :
    ∃ s', save_notification n now s = some s' ∧ s'.length = s.length ∧
      ∀ i (hi : i < s.length) (hi' : i < s'.length),
        frameOk n (s.get ⟨i, hi⟩) (s'.get ⟨i, hi'⟩) := by
  have hguard : ¬ 2 ≤ (s.filter (keyMatch n)).length := by omega
  refine ⟨s.map fun r => if keyMatch n r then updateExisting n r else r, ?_, by simp, ?_⟩
  · simp [save_notification, hfind, hguard]
  · intro i hi hi'
    simp only [List.get_eq_getElem, List.getElem_map]
    cases h : keyMatch n (s[i]) <;>
      simp [frameOk, h, updateExisting]

/-- C4 witness: a concrete read row re-observed with new content keeps its
id, triage status and snooze field, and takes the new title. -/
theorem save_notification_update_frame_witness :
    ∃ s', save_notification { sampleNotification with title := "fresh" } 7
        [newRecord sampleNotification 0] = some s' ∧
      s'.length = [newRecord sampleNotification 0].length ∧
      ∀ i (hi : i < [newRecord sampleNotification 0].length) (hi' : i < s'.length),
        frameOk { sampleNotification with title := "fresh" }
          ([newRecord sampleNotification 0].get ⟨i, hi⟩) (s'.get ⟨i, hi'⟩) :=
  save_notification_update_frame { sampleNotification with title := "fresh" } 7
    [newRecord sampleNotification 0] (newRecord sampleNotification 0)
    (by decide) (by decide)

/-! ## C2 and C3: the triage state machine as implemented -/

/-- The snooze invariant claimed for every reachable table row. -/
def snoozeInvariant (r : NotificationRecord) : Prop :=
  r.snoozed_until.isSome ↔ r.triage_status = "snoozed"

/-- C2 counterexample: a reachable state violating the claimed invariant.
Starting from an empty table, upsert a notification, snooze it, then mark
it read: `update_triage_status` never clears `snoozed_until`, so the row
ends with `triage_status = "read"` while `snoozed_until` is still set. -/
theorem update_triage_status_keeps_stale_snooze :
    (((update_triage_status
        (update_triage_status
          ((save_notification sampleNotification 0 []).getD [])
          "id-1" "snoozed" (some 10)).2
        "id-1" "read" none).2).map
          (fun r => (r.triage_status, r.snoozed_until))) =
      [("read", some 10)] := by decide

/-- C2 amended: `update_triage_status` with no `snoozed_until` argument
leaves every row's `snoozed_until` unchanged (so moving a snoozed row to
read or archived keeps its stale `snoozed_until`), and sets the matched
row's `triage_status` to the requested status. -/
theorem update_triage_status_snoozed_until_frame (s : Store) (nid st : String) :
    ((update_triage_status s nid st none).2).length = s.length ∧
    ∀ i (hi : i < s.length) (hi' : i < ((update_triage_status s nid st none).2).length),
      (((update_triage_status s nid st none).2).get ⟨i, hi'⟩).snoozed_until =
        (s.get ⟨i, hi⟩).snoozed_until ∧
      ((s.get ⟨i, hi⟩).id = nid →
        (((update_triage_status s nid st none).2).get ⟨i, hi'⟩).triage_status = st) := by
  unfold update_triage_status
  cases hf : s.find? (fun r => r.id == nid) with
  | none =>
    refine ⟨rfl, ?_⟩
    intro i hi hi'
    refine ⟨rfl, ?_⟩
    intro hid
    have hmem := List.find?_eq_none.mp hf (s.get ⟨i, hi⟩) (s.get_mem i hi)
    simp only [List.get_eq_getElem] at hid
    simp [hid] at hmem
  | some r0 =>
    refine ⟨by simp, ?_⟩
    intro i hi hi'
    simp only [List.get_eq_getElem, List.getElem_map]
    cases h : (s[i]).id == nid <;> simp_all

/-- C2 amended witness: evaluated on a concrete one-row snoozed table
moved to read. -/
theorem update_triage_status_snoozed_until_frame_witness :
    ((update_triage_status [{ newRecord sampleNotification 0 with
        triage_status := "snoozed", snoozed_until := some 10 }] "id-1" "read" none).2).length =
      1 ∧
    ∀ i (hi : i < ([{ newRecord sampleNotification 0 with
          triage_status := "snoozed", snoozed_until := some 10 }] : Store).length)
      (hi' : i < ((update_triage_status [{ newRecord sampleNotification 0 with
          triage_status := "snoozed", snoozed_until := some 10 }] "id-1" "read" none).2).length),
      (((update_triage_status [{ newRecord sampleNotification 0 with
          triage_status := "snoozed", snoozed_until := some 10 }] "id-1" "read" none).2).get
            ⟨i, hi'⟩).snoozed_until =
        (([{ newRecord sampleNotification 0 with
          triage_status := "snoozed", snoozed_until := some 10 }] : Store).get
            ⟨i, hi⟩).snoozed_until ∧
      ((([{ newRecord sampleNotification 0 with
          triage_status := "snoozed", snoozed_until := some 10 }] : Store).get ⟨i, hi⟩).id =
          "id-1" →
        (((update_triage_status [{ newRecord sampleNotification 0 with
            triage_status := "snoozed", snoozed_until := some 10 }] "id-1" "read" none).2).get
              ⟨i, hi'⟩).triage_status = "read") :=
  update_triage_status_snoozed_until_frame
    [{ newRecord sampleNotification 0 with
        triage_status := "snoozed", snoozed_until := some 10 }] "id-1" "read"

/-- C3 counterexample: `update_triage_status` applied to an archived row
with status `"unread"` returns `true` and moves the row out of archived,
so the operation does restrict no transition. -/
theorem update_triage_status_escapes_archived :
    (update_triage_status
        [{ newRecord sampleNotification 0 with triage_status := "archived" }]
        "id-1" "unread" none).1 = true ∧
    ((update_triage_status
        [{ newRecord sampleNotification 0 with triage_status := "archived" }]
        "id-1" "unread" none).2).map (fun r => r.triage_status) = ["unread"] := by
  decide

/-- C3 amended: `update_triage_status` returns `false` exactly when the id
is unknown, in which case the table is unchanged; for a known id it
assigns the requested status unconditionally — including transitions out
of `archived` and to `snoozed` without a `snoozed_until` — and stores the
supplied `snoozed_until` when one is given. -/
theorem update_triage_status_characterisation (s : Store) (nid st : String)
    (su : Option Nat) :
    ((update_triage_status s nid st su).1 = false ↔
      s.find? (fun r => r.id == nid) = none) ∧
    ((update_triage_status s nid st su).1 = false →
      (update_triage_status s nid st su).2 = s) ∧
    (∀ r ∈ (update_triage_status s nid st su).2, r.id = nid → r.triage_status = st) ∧
    (∀ r ∈ (update_triage_status s nid st su).2, r.id = nid →
      ∀ t, su = some t → r.snoozed_until = some t) := by
  cases hf : s.find? (fun r => r.id == nid) with
  | none =>
    refine ⟨by simp [update_triage_status, hf], by simp [update_triage_status, hf], ?_, ?_⟩
    · intro r hr hid
      have hmem := List.find?_eq_none.mp hf r
        (by simpa [update_triage_status, hf] using hr)
      simp [hid] at hmem
    · intro r hr hid t hsu
      have hmem := List.find?_eq_none.mp hf r
        (by simpa [update_triage_status, hf] using hr)
      simp [hid] at hmem
  | some r0 =>
    refine ⟨by simp [update_triage_status, hf], by simp [update_triage_status, hf], ?_, ?_⟩
    · intro r hr hid
      simp only [update_triage_status, hf] at hr
      obtain ⟨r1, hr1, hgr⟩ := List.mem_map.mp hr
      by_cases h : (r1.id == nid) = true
      · rw [← hgr]; simp [h]
      · simp [h] at hgr; subst hgr; simp_all
    · intro r hr hid t hsu
      subst hsu
      simp only [update_triage_status, hf] at hr
      obtain ⟨r1, hr1, hgr⟩ := List.mem_map.mp hr
      by_cases h : (r1.id == nid) = true
      · rw [← hgr]; simp [h]
      · simp [h] at hgr; subst hgr; simp_all

/-- C3 amended witness: the characterisation evaluated on a concrete
one-row archived table. -/
theorem update_triage_status_characterisation_witness :
    ((update_triage_status
        [{ newRecord sampleNotification 0 with triage_status := "archived" }]
        "id-1" "unread" none).1 = false ↔
      ([{ newRecord sampleNotification 0 with triage_status := "archived" }] : Store).find?
        (fun r => r.id == "id-1") = none) ∧
    ((update_triage_status
        [{ newRecord sampleNotification 0 with triage_status := "archived" }]
        "id-1" "unread" none).1 = false →
      (update_triage_status
        [{ newRecord sampleNotification 0 with triage_status := "archived" }]
        "id-1" "unread" none).2 =
        [{ newRecord sampleNotification 0 with triage_status := "archived" }]) ∧
    (∀ r ∈ (update_triage_status
        [{ newRecord sampleNotification 0 with triage_status := "archived" }]
        "id-1" "unread" none).2, r.id = "id-1" → r.triage_status = "unread") ∧
    (∀ r ∈ (update_triage_status
        [{ newRecord sampleNotification 0 with triage_status := "archived" }]
        "id-1" "unread" none).2, r.id = "id-1" →
      ∀ t, (none : Option Nat) = some t → r.snoozed_until = some t) :=
  update_triage_status_characterisation
    [{ newRecord sampleNotification 0 with triage_status := "archived" }]
    "id-1" "unread" none

/-! ## C5 and C6: listing, lazy snooze expiry, archive exclusion -/

/-- Rows surviving the query filter come from the table. -/
theorem mem_of_mem_visible {s : Store} {filt : Option String} {r : NotificationRecord}
    (h : r ∈ visibleRecords s filt) : r ∈ s := by
  cases filt with
  | none =>
    exact List.mem_of_mem_filter
      (show r ∈ s.filter (fun r => r.triage_status != "archived") from h)
  | some f =>
    simp only [visibleRecords] at h
    split at h <;> exact List.mem_of_mem_filter h

/-- Rows fetched by the query come from the table. -/
theorem mem_of_mem_selected {s : Store} {limit : Nat} {filt : Option String}
    {r : NotificationRecord} (h : r ∈ selectedRecords s limit filt) : r ∈ s := by
  unfold selectedRecords at h
  exact mem_of_mem_visible (List.mem_mergeSort.mp (List.take_subset _ _ h))

/-- C5: `load_notifications` flips every fetched row that is snoozed past
its `snoozed_until` to unread with the snooze cleared, both in the
returned dict and in the committed table; a fetched snoozed row whose
`snoozed_until` is still in the future is returned as snoozed and left
unchanged in the table. -/
theorem load_notifications_lazy_expiry (s : Store) (now limit : Nat)
    (filt : Option String) (r : NotificationRecord)
    (hr : r ∈ selectedRecords s limit filt) :
    (expiredSnooze now r = true →
      toDict (unsnooze r) ∈ (load_notifications s now limit filt).1 ∧
      unsnooze r ∈ (load_notifications s now limit filt).2 ∧
      (toDict (unsnooze r)).triage_status = "unread" ∧
      (toDict (unsnooze r)).snoozed_until = none) ∧
    (r.triage_status = "snoozed" → expiredSnooze now r = false →
      toDict r ∈ (load_notifications s now limit filt).1 ∧
      r ∈ (load_notifications s now limit filt).2 ∧
      (toDict r).triage_status = "snoozed") := by
  have hrs : r ∈ s := mem_of_mem_selected hr
  simp only [load_notifications]
  constructor
  · intro hexp
    have hin : r.id ∈ ((selectedRecords s limit filt).filter
        (expiredSnooze now)).map (fun r => r.id) :=
      List.mem_map.mpr ⟨r, List.mem_filter.mpr ⟨hr, hexp⟩, rfl⟩
    have hc : (((selectedRecords s limit filt).filter
        (expiredSnooze now)).map (fun r => r.id)).contains r.id = true :=
      List.elem_eq_true_of_mem hin
    exact ⟨List.mem_map.mpr ⟨r, hr, by simp [hexp]⟩,
      List.mem_map.mpr ⟨r, hrs, if_pos (by rw [hc, hexp]; rfl)⟩, rfl, rfl⟩
  · intro hsn hexp
    exact ⟨List.mem_map.mpr ⟨r, hr, by simp [hexp]⟩,
      List.mem_map.mpr ⟨r, hrs, if_neg (by simp [hexp])⟩, hsn⟩

/-- A snoozed row whose snooze has expired at time 20. -/
def snoozedExpiredRec : NotificationRecord :=
  { newRecord sampleNotification 0 with
    id := "id-e", source_id := "msg-e", triage_status := "snoozed",
    snoozed_until := some 10 }

/-- A snoozed row whose snooze is still in the future at time 20. -/
def snoozedFutureRec : NotificationRecord :=
  { newRecord sampleNotification 0 with
    id := "id-f", source_id := "msg-f", timestamp := 50,
    triage_status := "snoozed", snoozed_until := some 100 }

/-- C5 witness: the lazy-expiry theorem evaluated at time 20 on a concrete
two-row table holding one expired and one future snooze, at the expired
row. -/
theorem load_notifications_lazy_expiry_witness :
    (expiredSnooze 20 snoozedExpiredRec = true →
      toDict (unsnooze snoozedExpiredRec) ∈
        (load_notifications [snoozedExpiredRec, snoozedFutureRec] 20 50 none).1 ∧
      unsnooze snoozedExpiredRec ∈
        (load_notifications [snoozedExpiredRec, snoozedFutureRec] 20 50 none).2 ∧
      (toDict (unsnooze snoozedExpiredRec)).triage_status = "unread" ∧
      (toDict (unsnooze snoozedExpiredRec)).snoozed_until = none) ∧
    (snoozedExpiredRec.triage_status = "snoozed" →
      expiredSnooze 20 snoozedExpiredRec = false →
      toDict snoozedExpiredRec ∈
        (load_notifications [snoozedExpiredRec, snoozedFutureRec] 20 50 none).1 ∧
      snoozedExpiredRec ∈
        (load_notifications [snoozedExpiredRec, snoozedFutureRec] 20 50 none).2 ∧
      (toDict snoozedExpiredRec).triage_status = "snoozed") :=
  load_notifications_lazy_expiry [snoozedExpiredRec, snoozedFutureRec] 20 50 none
    snoozedExpiredRec
    (by
      unfold selectedRecords
      rw [List.take_of_length_le (by rw [List.length_mergeSort]; decide)]
      exact List.mem_mergeSort.mpr (by decide))

/-- C6: the default listing never returns an archived row; the listing
filtered to `"archived"` returns archived rows only, and all of them when
they fit in the limit; and `update_triage_status` never deletes — the
table keeps its length, and archiving a known id leaves an archived row
with that id in the table. -/
theorem load_notifications_archive_exclusion (s : Store) (now limit : Nat) :
    (∀ d ∈ (load_notifications s now limit none).1, d.triage_status ≠ "archived") ∧
    (∀ d ∈ (load_notifications s now limit (some "archived")).1,
      d.triage_status = "archived") ∧
    ((s.filter (fun r => r.triage_status == "archived")).length ≤ limit →
      ∀ r ∈ s, r.triage_status = "archived" →
        toDict r ∈ (load_notifications s now limit (some "archived")).1) ∧
    (∀ nid st su, ((update_triage_status s nid st su).2).length = s.length) ∧
    (∀ nid su, (update_triage_status s nid "archived" su).1 = true →
      ∃ r, r ∈ (update_triage_status s nid "archived" su).2 ∧
        r.id = nid ∧ r.triage_status = "archived") := by
  refine ⟨?_, ?_, ?_, ?_, ?_⟩
  · intro d hd
    simp only [load_notifications] at hd
    obtain ⟨r, hrsel, rfl⟩ := List.mem_map.mp hd
    have hrv : r ∈ visibleRecords s none :=
      List.mem_mergeSort.mp (List.take_subset _ _ hrsel)
    have hrna : (r.triage_status != "archived") = true := (List.mem_filter.mp hrv).2
    cases hexp : expiredSnooze now r
    · rw [if_neg (by simp [hexp])]
      intro hcon
      rw [show (toDict r).triage_status = r.triage_status from rfl] at hcon
      simp [hcon] at hrna
    · rw [if_pos (by simp [hexp])]
      intro hcon
      simp [toDict, unsnooze] at hcon
  · intro d hd
    simp only [load_notifications] at hd
    obtain ⟨r, hrsel, rfl⟩ := List.mem_map.mp hd
    have hrv : r ∈ visibleRecords s (some "archived") :=
      List.mem_mergeSort.mp (List.take_subset _ _ hrsel)
    simp only [visibleRecords] at hrv
    rw [if_neg (by decide)] at hrv
    have ha : r.triage_status = "archived" := by
      simpa using (List.mem_filter.mp hrv).2
    have hexp : expiredSnooze now r = false := by simp [expiredSnooze, ha]
    rw [if_neg (by simp [hexp])]
    exact ha
  · intro hlen r hrs ha
    simp only [load_notifications]
    refine List.mem_map.mpr ⟨r, ?_, ?_⟩
    · unfold selectedRecords
      have hvis : visibleRecords s (some "archived") =
          s.filter (fun r => r.triage_status == "archived") := by
        simp only [visibleRecords]
        rw [if_neg (by decide)]
      rw [hvis]
      have hlen2 : ((s.filter
          (fun r => r.triage_status == "archived")).mergeSort tsDescLe).length ≤ limit := by
        rw [List.length_mergeSort]; exact hlen
      rw [List.take_of_length_le hlen2]
      exact List.mem_mergeSort.mpr (List.mem_filter.mpr ⟨hrs, by simp [ha]⟩)
    · have hexp : expiredSnooze now r = false := by simp [expiredSnooze, ha]
      rw [if_neg (by simp [hexp])]
  · intro nid st su
    cases hf : s.find? (fun r => r.id == nid) <;> simp [update_triage_status, hf]
  · intro nid su h1
    cases hf : s.find? (fun r => r.id == nid) with
    | none => simp [update_triage_status, hf] at h1
    | some r0 =>
      have hmem := List.mem_of_find?_eq_some hf
      have hid : r0.id = nid := by simpa using List.find?_some hf
      simp only [update_triage_status, hf]
      exact ⟨_, List.mem_map.mpr ⟨r0, hmem, rfl⟩, by simp [hid], by simp [hid]⟩

/-- A concrete two-row table with one archived row, to evaluate the
archive-exclusion theorem. -/
def archivedStore : Store :=
  [{ newRecord sampleNotification 0 with
      id := "id-a", source_id := "msg-a", triage_status := "archived" },
    newRecord sampleNotification 0]

/-- C6 witness: the archive-exclusion theorem evaluated on a concrete
two-row table with one archived row. -/
theorem load_notifications_archive_exclusion_witness :
    (∀ d ∈ (load_notifications archivedStore 20 50 none).1,
      d.triage_status ≠ "archived") ∧
    (∀ d ∈ (load_notifications archivedStore 20 50 (some "archived")).1,
      d.triage_status = "archived") ∧
    ((archivedStore.filter (fun r => r.triage_status == "archived")).length ≤ 50 →
      ∀ r ∈ archivedStore, r.triage_status = "archived" →
        toDict r ∈ (load_notifications archivedStore 20 50 (some "archived")).1) ∧
    (∀ nid st su,
      ((update_triage_status archivedStore nid st su).2).length =
        archivedStore.length) ∧
    (∀ nid su, (update_triage_status archivedStore nid "archived" su).1 = true →
      ∃ r, r ∈ (update_triage_status archivedStore nid "archived" su).2 ∧
        r.id = nid ∧ r.triage_status = "archived") :=
  load_notifications_archive_exclusion archivedStore 20 50

/-! ## C7: isolated fan-out -/

/-- The fold of `fetch_all_recent` with an arbitrary accumulator. -/
theorem collect_foldl_acc (results : List (Except String (List Notification)))
    (acc : List Notification) :
    results.foldl collectStep acc = acc ++ collectOk results := by
  induction results generalizing acc with
  | nil => simp [collectOk]
  | cons hd tl ih =>
    cases hd with
    | ok lst =>
      rw [collectOk, List.foldl_cons, List.foldl_cons, ih, ih]
      simp [collectStep]
    | error e =>
      rw [collectOk, List.foldl_cons, List.foldl_cons, ih, ih]
      simp [collectStep]

/-- Membership in the merged successful results. -/
theorem mem_collectOk {results : List (Except String (List Notification))}
    {x : Notification} :
    x ∈ collectOk results ↔ ∃ l, Except.ok l ∈ results ∧ x ∈ l := by
  induction results with
  | nil => simp [collectOk]
  | cons hd tl ih =>
    have hcons : collectOk (hd :: tl) = collectStep [] hd ++ collectOk tl := by
      rw [collectOk, List.foldl_cons, collect_foldl_acc]
    cases hd with
    | ok lst =>
      rw [hcons]
      simp only [collectStep, List.nil_append, List.mem_append, ih, List.mem_cons]
      constructor
      · rintro (hx | ⟨l, hl, hxl⟩)
        · exact ⟨lst, Or.inl rfl, hx⟩
        · exact ⟨l, Or.inr hl, hxl⟩
      · rintro ⟨l, hl | hl, hxl⟩
        · cases hl; exact Or.inl hxl
        · exact Or.inr ⟨l, hl, hxl⟩
    | error e =>
      rw [hcons]
      simp only [collectStep, List.nil_append, ih, List.mem_cons]
      constructor
      · rintro ⟨l, hl, hxl⟩
        exact ⟨l, Or.inr hl, hxl⟩
      · rintro ⟨l, hl | hl, hxl⟩
        · cases hl
        · exact ⟨l, hl, hxl⟩

/-- `fetch_all_recent` unfolded through `collectOk`. -/
theorem fetch_all_recent_eq (results : List (Except String (List Notification)))
    (limit : Nat) :
    fetch_all_recent results limit =
      ((collectOk results).mergeSort notifDescLe).take limit := rfl

/-- C7: `fetch_all_recent` never fails; every returned notification comes
from a successful adapter; a failing adapter contributes nothing (dropping
the exception from the outcome list leaves the result unchanged); the
result is sorted by timestamp descending; and it is the whole merge when
that fits in the limit, truncated to the limit otherwise. -/
theorem fetch_all_recent_isolated_fanout
    (results : List (Except String (List Notification))) (limit : Nat) :
    (∀ x ∈ fetch_all_recent results limit, ∃ l, Except.ok l ∈ results ∧ x ∈ l) ∧
    (∀ pre post e, fetch_all_recent (pre ++ Except.error e :: post) limit =
      fetch_all_recent (pre ++ post) limit) ∧
    (fetch_all_recent results limit).Pairwise
      (fun a b => b.timestamp ≤ a.timestamp) ∧
    (fetch_all_recent results limit).length = min limit (collectOk results).length ∧
    ((collectOk results).length ≤ limit →
      (fetch_all_recent results limit).Perm (collectOk results)) := by
  refine ⟨?_, ?_, ?_, ?_, ?_⟩
  · intro x hx
    have hx1 : x ∈ (collectOk results).mergeSort notifDescLe :=
      List.take_subset _ _ hx
    exact mem_collectOk.mp (List.mem_mergeSort.mp hx1)
  · intro pre post e
    have hco : collectOk (pre ++ Except.error e :: post) = collectOk (pre ++ post) := by
      rw [collectOk, collectOk, List.foldl_append, List.foldl_append, List.foldl_cons]
      rfl
    rw [fetch_all_recent_eq, fetch_all_recent_eq, hco]
  · have hs : ((collectOk results).mergeSort notifDescLe).Pairwise
        (fun a b => notifDescLe a b = true) :=
      List.sorted_mergeSort
        (fun a b c hab hbc => by
          simp only [notifDescLe, decide_eq_true_eq] at hab hbc ⊢
          omega)
        (fun a b => by
          simp only [notifDescLe, Bool.or_eq_true, decide_eq_true_eq]
          omega)
        (collectOk results)
    have hsub : (fetch_all_recent results limit).Sublist
        ((collectOk results).mergeSort notifDescLe) := List.take_sublist _ _
    refine (List.Pairwise.sublist hsub hs).imp ?_
    intro a b h
    simpa [notifDescLe] using h
  · rw [fetch_all_recent_eq, List.length_take, List.length_mergeSort]
  · intro hle
    rw [fetch_all_recent_eq,
      List.take_of_length_le (by rw [List.length_mergeSort]; exact hle)]
    exact List.mergeSort_perm _ _

/-- A second sample notification, with an earlier timestamp. -/
def notifEarly : Notification :=
  { sampleNotification with id := "id-early", source_id := "msg-early", timestamp := 10 }

/-- A third sample notification, with a later timestamp. -/
def notifLate : Notification :=
  { sampleNotification with id := "id-late", source_id := "msg-late", timestamp := 30 }

/-- A concrete fan-out outcome: two adapters succeed, the middle one
raises. -/
def fanoutResults : List (Except String (List Notification)) :=
  [Except.ok [notifEarly], Except.error "boom", Except.ok [notifLate]]

/-- C7 witness: the isolated fan-out theorem evaluated on a concrete
three-adapter outcome whose middle adapter raised. -/
theorem fetch_all_recent_isolated_fanout_witness :
    (∀ x ∈ fetch_all_recent fanoutResults 50,
      ∃ l, Except.ok l ∈ fanoutResults ∧ x ∈ l) ∧
    (∀ pre post e, fetch_all_recent (pre ++ Except.error e :: post) 50 =
      fetch_all_recent (pre ++ post) 50) ∧
    (fetch_all_recent fanoutResults 50).Pairwise
      (fun a b => b.timestamp ≤ a.timestamp) ∧
    (fetch_all_recent fanoutResults 50).length =
      min 50 (collectOk fanoutResults).length ∧
    ((collectOk fanoutResults).length ≤ 50 →
      (fetch_all_recent fanoutResults 50).Perm (collectOk fanoutResults)) :=
  fetch_all_recent_isolated_fanout fanoutResults 50

/-! ## C8: broadcast isolation -/

/-- C8: after `broadcast`, the connection set is exactly the connections
whose delivery succeeded, each having received the one serialised payload
appended to its inbox; every connection whose delivery raised is gone, and
stays gone across a further broadcast. -/
theorem broadcast_isolation (st : ConnectionManager) (message : WebSocketMessage)
    (hids : (st.active_connections.map (fun c => c.cid)).Nodup) :
    (∀ c' ∈ (broadcast message st).active_connections, c'.broken = false) ∧
    (∀ c ∈ st.active_connections, c.broken = false →
      { c with inbox := c.inbox ++ [model_dump_json message] } ∈
        (broadcast message st).active_connections) ∧
    (∀ c' ∈ (broadcast message st).active_connections,
      ∃ c, c ∈ st.active_connections ∧ c.broken = false ∧
        c' = { c with inbox := c.inbox ++ [model_dump_json message] }) ∧
    (∀ c ∈ st.active_connections, c.broken = true →
      ∀ c' ∈ (broadcast message st).active_connections, c'.cid ≠ c.cid) ∧
    (∀ c ∈ st.active_connections, c.broken = true →
      ∀ m2, ∀ c' ∈ (broadcast m2 (broadcast message st)).active_connections,
        c'.cid ≠ c.cid) := by
  have hmem : ∀ c' ∈ (broadcast message st).active_connections,
      ∃ c, c ∈ st.active_connections ∧ c.broken = false ∧
        c' = { c with inbox := c.inbox ++ [model_dump_json message] } := by
    intro c' hc'
    simp only [broadcast] at hc'
    have hc'2 := List.mem_of_mem_filter hc'
    have hnb : c'.broken = false := by
      have := (List.mem_filter.mp hc').2
      simpa using this
    obtain ⟨c, hcmem, hmap⟩ := List.mem_map.mp hc'2
    by_cases hb : c.broken = true
    · rw [if_pos hb] at hmap
      subst hmap
      rw [hb] at hnb
      cases hnb
    · have hb' : c.broken = false := by
        cases h : c.broken
        · rfl
        · exact absurd h hb
      rw [if_neg hb] at hmap
      exact ⟨c, hcmem, hb', hmap.symm⟩
  refine ⟨?_, ?_, hmem, ?_, ?_⟩
  · intro c' hc'
    obtain ⟨c, _, hb, rfl⟩ := hmem c' hc'
    exact hb
  · intro c hc hb
    simp only [broadcast]
    refine List.mem_filter.mpr ⟨?_, by simpa using hb⟩
    exact List.mem_map.mpr ⟨c, hc, by rw [if_neg (by simp [hb])]⟩
  · intro c hc hb c' hc' hcid
    obtain ⟨c0, hc0mem, hc0nb, rfl⟩ := hmem c' hc'
    have : c0.cid = c.cid := by simpa using hcid
    have := List.inj_on_of_nodup_map hids hc0mem hc this
    subst this
    rw [hb] at hc0nb
    cases hc0nb
  · intro c hc hb m2 c'' hc''
    simp only [broadcast] at hc''
    have hc''2 := List.mem_of_mem_filter hc''
    obtain ⟨c', hc'mem, hmap⟩ := List.mem_map.mp hc''2
    have hcid' : c''.cid = c'.cid := by
      by_cases hb' : c'.broken = true
      · rw [if_pos hb'] at hmap; rw [← hmap]
      · rw [if_neg hb'] at hmap; rw [← hmap]
    rw [hcid']
    obtain ⟨c0, hc0mem, hc0nb, rfl⟩ := hmem c' hc'mem
    intro hcon
    have hcc : c0.cid = c.cid := by simpa using hcon
    have := List.inj_on_of_nodup_map hids hc0mem hc hcc
    subst this
    rw [hb] at hc0nb
    cases hc0nb

/-- A concrete three-connection hub state whose middle connection raises
on delivery. -/
def hubState : ConnectionManager :=
  { active_connections :=
      [{ cid := 1, broken := false, inbox := [] },
        { cid := 2, broken := true, inbox := [] },
        { cid := 3, broken := false, inbox := [] }] }

/-- A concrete event to broadcast. -/
def sampleEvent : WebSocketMessage :=
  { event := "new_notification", data := [("id", "id-1")] }

/-- C8 witness: broadcast isolation evaluated on the concrete
three-connection hub. -/
theorem broadcast_isolation_witness :
    (∀ c' ∈ (broadcast sampleEvent hubState).active_connections, c'.broken = false) ∧
    (∀ c ∈ hubState.active_connections, c.broken = false →
      { c with inbox := c.inbox ++ [model_dump_json sampleEvent] } ∈
        (broadcast sampleEvent hubState).active_connections) ∧
    (∀ c' ∈ (broadcast sampleEvent hubState).active_connections,
      ∃ c, c ∈ hubState.active_connections ∧ c.broken = false ∧
        c' = { c with inbox := c.inbox ++ [model_dump_json sampleEvent] }) ∧
    (∀ c ∈ hubState.active_connections, c.broken = true →
      ∀ c' ∈ (broadcast sampleEvent hubState).active_connections, c'.cid ≠ c.cid) ∧
    (∀ c ∈ hubState.active_connections, c.broken = true →
      ∀ m2, ∀ c' ∈ (broadcast m2 (broadcast sampleEvent hubState)).active_connections,
        c'.cid ≠ c.cid) :=
  broadcast_isolation hubState sampleEvent (by decide)

/-! ## C9: reply routing -/

/-- Evaluation of the Gmail branch of `get_service_for_reply`. -/
theorem get_service_for_reply_gmail (reg : ServiceRegistry) (account : String) :
    get_service_for_reply reg Source.gmail account =
      (reg.gmail_services.find? fun s => s.email == account).map ServiceRef.gmailSvc := rfl

/-- Evaluation of the Outlook branch of `get_service_for_reply`: the
requested account is ignored. -/
theorem get_service_for_reply_outlook (reg : ServiceRegistry) (account : String) :
    get_service_for_reply reg Source.outlook account =
      reg.outlook_service.map ServiceRef.outlookSvc := rfl

/-- Evaluation of the Slack branch of `get_service_for_reply`. -/
theorem get_service_for_reply_slack (reg : ServiceRegistry) (account : String) :
    get_service_for_reply reg Source.slack account =
      (reg.slack_services.find? fun s => s.workspace_name == account).map
        ServiceRef.slackSvc := rfl

/-- Evaluation of `get_service_for_reply` on the task-tracker sources. -/
theorem get_service_for_reply_trackers (reg : ServiceRegistry) (account : String) :
    get_service_for_reply reg Source.asana account = none ∧
    get_service_for_reply reg Source.plane account = none := ⟨rfl, rfl⟩

/-- A registry holding one Outlook service configured for account
`"alice@outlook.com"`. -/
def outlookOnlyRegistry : ServiceRegistry :=
  { gmail_services := []
    outlook_service := some { account := "alice@outlook.com" }
    slack_services := [] }

/-- C9 counterexample: asking the Outlook branch for account
`"bob@outlook.com"` returns the adapter configured for
`"alice@outlook.com"` — the returned adapter's account differs from the
requested account. -/
theorem get_service_for_reply_ignores_outlook_account :
    get_service_for_reply outlookOnlyRegistry Source.outlook "bob@outlook.com" =
      some (ServiceRef.outlookSvc { account := "alice@outlook.com" }) ∧
    "alice@outlook.com" ≠ "bob@outlook.com" := by
  exact ⟨rfl, by decide⟩

/-- C9 amended: `get_service_for_reply` matches exactly on (source,
account) for Gmail (`email`) and Slack (`workspace_name`), returning
`none` when no adapter matches; for Outlook it returns the single
configured Outlook adapter, if any, regardless of the requested account;
for the task trackers it always returns `none`. -/
theorem get_service_for_reply_characterisation (reg : ServiceRegistry)
    (source : Source) (account : String) :
    (∀ s, get_service_for_reply reg source account = some (ServiceRef.gmailSvc s) →
      source = Source.gmail ∧ s ∈ reg.gmail_services ∧ s.email = account) ∧
    (∀ s, get_service_for_reply reg source account = some (ServiceRef.slackSvc s) →
      source = Source.slack ∧ s ∈ reg.slack_services ∧ s.workspace_name = account) ∧
    (∀ s, get_service_for_reply reg source account = some (ServiceRef.outlookSvc s) →
      source = Source.outlook ∧ reg.outlook_service = some s) ∧
    (source = Source.asana ∨ source = Source.plane →
      get_service_for_reply reg source account = none) ∧
    (source = Source.gmail →
      reg.gmail_services.find? (fun s => s.email == account) = none →
      get_service_for_reply reg source account = none) := by
  refine ⟨?_, ?_, ?_, ?_, ?_⟩
  · intro s hs
    cases source with
    | gmail =>
      rw [get_service_for_reply_gmail] at hs
      obtain ⟨g, hg, hinj⟩ := Option.map_eq_some'.mp hs
      obtain rfl : g = s := by simpa using hinj
      exact ⟨rfl, List.mem_of_find?_eq_some hg, by simpa using List.find?_some hg⟩
    | outlook =>
      rw [get_service_for_reply_outlook] at hs
      obtain ⟨g, hg, hinj⟩ := Option.map_eq_some'.mp hs
      simp at hinj
    | slack =>
      rw [get_service_for_reply_slack] at hs
      obtain ⟨g, hg, hinj⟩ := Option.map_eq_some'.mp hs
      simp at hinj
    | asana => simp [(get_service_for_reply_trackers reg account).1] at hs
    | plane => simp [(get_service_for_reply_trackers reg account).2] at hs
  · intro s hs
    cases source with
    | gmail =>
      rw [get_service_for_reply_gmail] at hs
      obtain ⟨g, hg, hinj⟩ := Option.map_eq_some'.mp hs
      simp at hinj
    | outlook =>
      rw [get_service_for_reply_outlook] at hs
      obtain ⟨g, hg, hinj⟩ := Option.map_eq_some'.mp hs
      simp at hinj
    | slack =>
      rw [get_service_for_reply_slack] at hs
      obtain ⟨g, hg, hinj⟩ := Option.map_eq_some'.mp hs
      obtain rfl : g = s := by simpa using hinj
      exact ⟨rfl, List.mem_of_find?_eq_some hg, by simpa using List.find?_some hg⟩
    | asana => simp [(get_service_for_reply_trackers reg account).1] at hs
    | plane => simp [(get_service_for_reply_trackers reg account).2] at hs
  · intro s hs
    cases source with
    | gmail =>
      rw [get_service_for_reply_gmail] at hs
      obtain ⟨g, hg, hinj⟩ := Option.map_eq_some'.mp hs
      simp at hinj
    | outlook =>
      rw [get_service_for_reply_outlook] at hs
      obtain ⟨g, hg, hinj⟩ := Option.map_eq_some'.mp hs
      obtain rfl : g = s := by simpa using hinj
      exact ⟨rfl, hg⟩
    | slack =>
      rw [get_service_for_reply_slack] at hs
      obtain ⟨g, hg, hinj⟩ := Option.map_eq_some'.mp hs
      simp at hinj
    | asana => simp [(get_service_for_reply_trackers reg account).1] at hs
    | plane => simp [(get_service_for_reply_trackers reg account).2] at hs
  · rintro (rfl | rfl)
    · exact (get_service_for_reply_trackers reg account).1
    · exact (get_service_for_reply_trackers reg account).2
  · rintro rfl hnone
    rw [get_service_for_reply_gmail, hnone]
    rfl

/-- C9 amended witness: the characterisation evaluated on the concrete
Outlook-only registry at source Outlook and a mismatched account. -/
theorem get_service_for_reply_characterisation_witness :
    (∀ s, get_service_for_reply outlookOnlyRegistry Source.outlook "bob@outlook.com" =
        some (ServiceRef.gmailSvc s) →
      Source.outlook = Source.gmail ∧ s ∈ outlookOnlyRegistry.gmail_services ∧
        s.email = "bob@outlook.com") ∧
    (∀ s, get_service_for_reply outlookOnlyRegistry Source.outlook "bob@outlook.com" =
        some (ServiceRef.slackSvc s) →
      Source.outlook = Source.slack ∧ s ∈ outlookOnlyRegistry.slack_services ∧
        s.workspace_name = "bob@outlook.com") ∧
    (∀ s, get_service_for_reply outlookOnlyRegistry Source.outlook "bob@outlook.com" =
        some (ServiceRef.outlookSvc s) →
      Source.outlook = Source.outlook ∧ outlookOnlyRegistry.outlook_service = some s) ∧
    (Source.outlook = Source.asana ∨ Source.outlook = Source.plane →
      get_service_for_reply outlookOnlyRegistry Source.outlook "bob@outlook.com" = none) ∧
    (Source.outlook = Source.gmail →
      outlookOnlyRegistry.gmail_services.find?
        (fun s => s.email == "bob@outlook.com") = none →
      get_service_for_reply outlookOnlyRegistry Source.outlook "bob@outlook.com" = none) :=
  get_service_for_reply_characterisation outlookOnlyRegistry Source.outlook
    "bob@outlook.com"

/-! ## C10: listener self-healing -/

/-- C10 counterexample: the recovery trace of a listener that raises once
and then runs contains a `connection_status=false` event but no
`connection_status=true` event at all, so no false-before-true ordering
exists within the recovery. -/
theorem run_listener_no_true_event :
    ((run_listener "gmail" "work@gmail.com"
        [ListenOutcome.failure "boom", ListenOutcome.ok]).any isConnFalse = true) ∧
    ((run_listener "gmail" "work@gmail.com"
        [ListenOutcome.failure "boom", ListenOutcome.ok]).any isConnTrue = false) := by
  decide

/-- C10 amended: after `listen()` raises a non-cancellation exception the
loop broadcasts `connection_status=false`, sleeps the fixed 5 seconds,
retries `connect()` and resumes, all without external intervention; but
the recovery path never emits a `connection_status=true` event (only
`start()` does), so within the recovery trace no
`connection_status=false` precedes a `connection_status=true`. -/
theorem run_listener_self_heal (service account m : String)
    (rest : List ListenOutcome) :
    (run_listener service account (ListenOutcome.failure m :: rest) =
      ServiceEvent.listenStarted ::
      ServiceEvent.connectionStatus service false account ::
      ServiceEvent.sleepFor 5 ::
      ServiceEvent.connectAttempt ::
      run_listener service account rest) ∧
    (∀ script x y,
      ServiceEvent.connectionStatus x true y ∉ run_listener service account script) := by
  refine ⟨rfl, ?_⟩
  intro script x y
  induction script with
  | nil => simp [run_listener]
  | cons hd tl ih =>
    cases hd with
    | ok => simpa [run_listener] using ih
    | cancelled => simp [run_listener]
    | failure msg => simpa [run_listener] using ih

/-- C10 amended witness: the self-healing theorem evaluated on a concrete
adapter and a one-failure script. -/
theorem run_listener_self_heal_witness :
    (run_listener "gmail" "work@gmail.com" (ListenOutcome.failure "boom" :: [ListenOutcome.ok]) =
      ServiceEvent.listenStarted ::
      ServiceEvent.connectionStatus "gmail" false "work@gmail.com" ::
      ServiceEvent.sleepFor 5 ::
      ServiceEvent.connectAttempt ::
      run_listener "gmail" "work@gmail.com" [ListenOutcome.ok]) ∧
    (∀ script x y,
      ServiceEvent.connectionStatus x true y ∉
        run_listener "gmail" "work@gmail.com" script) :=
  run_listener_self_heal "gmail" "work@gmail.com" "boom" [ListenOutcome.ok]

end CommandCenter
